import Mathlib

/-!
Shallow embedding of `src/PYTHON/webserver.py` (a minimal HTTP server with an
HTML landing page and a JSON `/api` status endpoint) and proofs of the
specification claims about it.

Modelling conventions:
* Host-environment facts that the Python code reads at response-construction
  time (`platform.system()`, `platform.release()`, `platform.python_version()`,
  `platform.platform()`) are gathered in an `Env` record and passed as a
  parameter; the wall clock (`datetime.now()`) is a `Now` record.
* Byte strings are modelled as `String`; the byte length of a UTF-8 encoded
  string (`len(s.encode('utf-8'))` in Python) is `String.utf8ByteSize`.
* An HTTP response is the status code, the header lines in the exact order the
  handler emits them, and the body.
* A Python exception raised while constructing/writing a response is modelled
  by an `Option String` parameter to `do_GET` carrying `str(e)`; `none` means
  the handler ran without raising.
-/

/-- JSON values as produced by the handler: the status document only contains
strings and integers, nested in objects (Python `dict`s keep insertion
order, modelled by the field list's order). -/
inductive Json where
  | str (s : String)
  | int (n : Int)
  | obj (fields : List (String × Json))

/-- One hexadecimal digit, lowercase, as Python's `json` module emits in
`\uXXXX` escapes. -/
def hexDigit (n : Nat) : Char :=
  if n < 10 then Char.ofNat (48 + n) else Char.ofNat (87 + n)

/-- Four-digit lowercase hexadecimal rendering of `n % 2^16`. -/
def hex4 (n : Nat) : String :=
  String.mk [hexDigit (n / 4096 % 16), hexDigit (n / 256 % 16),
             hexDigit (n / 16 % 16), hexDigit (n % 16)]

/-- Escape one character the way `json.dumps` (default `ensure_ascii=True`)
does inside a JSON string literal. -/
def jsonEscapeChar (c : Char) : String :=
  if c = '"' then "\\\""
  else if c = '\\' then "\\\\"
  else if c = '\n' then "\\n"
  else if c = '\r' then "\\r"
  else if c = '\t' then "\\t"
  else if c = Char.ofNat 8 then "\\b"
  else if c = Char.ofNat 12 then "\\f"
  else if c.toNat < 32 then "\\u" ++ hex4 c.toNat
  else if c.toNat < 128 then String.singleton c
  else if c.toNat < 65536 then "\\u" ++ hex4 c.toNat
  else
    let n := c.toNat - 65536
    "\\u" ++ hex4 (55296 + n / 1024) ++ "\\u" ++ hex4 (56320 + n % 1024)

/-- A JSON string literal for `s`, as `json.dumps` serializes it. -/
def jsonQuote (s : String) : String :=
  "\"" ++ String.join (s.data.map jsonEscapeChar) ++ "\""

/-- `indent` spaces. -/
def indentStr (n : Nat) : String :=
  String.mk (List.replicate n ' ')

mutual

/-- Serialize a JSON value at nesting level `lvl`, following
`json.dumps(obj, indent=2)`: objects open with a brace and a newline, each
member on its own line indented by `2 * (lvl+1)` spaces, members separated by
a comma and a newline, and the closing brace indented by `2 * lvl` spaces;
the empty object prints with no inner newline. -/
def Json.render (lvl : Nat) : Json → String
  | .str s => jsonQuote s
  | .int n => toString n
  | .obj [] => "\x7b\x7d"
  | .obj (f :: fs) =>
      "\x7b\n" ++ Json.renderMembers (lvl + 1) f fs ++ "\n" ++ indentStr (2 * lvl) ++ "\x7d"
termination_by j => sizeOf j

/-- Serialize a nonempty member list at nesting level `lvl`, comma-separated
with the `indent=2` layout. -/
def Json.renderMembers (lvl : Nat) : (String × Json) → List (String × Json) → String
  | (k, v), [] => indentStr (2 * lvl) ++ jsonQuote k ++ ": " ++ Json.render lvl v
  | (k, v), f :: fs =>
      indentStr (2 * lvl) ++ jsonQuote k ++ ": " ++ Json.render lvl v ++ ",\n" ++
        Json.renderMembers lvl f fs
termination_by f fs => sizeOf f + sizeOf fs

end

/-- `json.dumps(j, indent=2)`. -/
def json_dumps_indent2 (j : Json) : String := Json.render 0 j

/-- Look a key up in a JSON object (Python `d[k]` on the decoded document). -/
def Json.getField : Json → String → Option Json
  | .obj fields, k => fields.lookup k
  | _, _ => none

/-- Host-environment facts the handler reads from the `platform` module at
response-construction time. -/
structure Env where
  system : String
  release : String
  python_version : String
  platform_full : String

/-- The wall-clock facts taken from `datetime.now()` when the API response is
built: the `%Y-%m-%d %H:%M:%S` rendering and `int(now.timestamp())`. -/
structure Now where
  datetime_str : String
  timestamp : Int

/-- The `platform_map` dict of `_create_api_response` (insertion order kept). -/
def platform_map : List (String × String) :=
  [("windows", "win32"), ("linux", "linux"), ("darwin", "darwin"), ("freebsd", "freebsd")]

/-- `WebServerHandler._create_api_response`: the JSON status document. `PORT`
is the module-level configured port the handler reads. -/
def create_api_response (env : Env) ( PORT : Nat) (now : Now) : Json :=
  let system := env.system.toLower
  let platform_id := (platform_map.lookup system).getD system
  Json.obj [
    ("server_info", Json.obj [
      ("port", Json.int PORT),
      ("platform", Json.str platform_id),
      ("os", Json.str (env.system ++ " " ++ env.release)),
      ("python_version", Json.str env.python_version),
      ("datetime", Json.str now.datetime_str),
      ("timestamp", Json.int now.timestamp),
      ("status", Json.str "running"),
      ("language", Json.str "python")
    ]),
    ("message", Json.str "Server API endpoint")
  ]

/-- The literal text of `html_template` before the `port` substitution point
(Python `{{`/`}}` brace escapes already resolved to literal braces). -/
def html_chunk_a : String :=
"<!DOCTYPE html>
<html lang=\"en\">
<head>
    <meta charset=\"UTF-8\">
    <meta name=\"viewport\" content=\"width=device-width, initial-scale=1.0\">
    <title>Python Web Server</title>
    <style>
        body \x7b
            font-family: 'Segoe UI', Tahoma, Geneva, Verdana, sans-serif;
            margin: 0;
            padding: 40px;
            background: linear-gradient(135deg, #667eea 0%, #764ba2 100%);
            min-height: 100vh;
            color: #333;
        \x7d
        .container \x7b
            max-width: 900px;
            margin: 0 auto;
            background-color: white;
            padding: 40px;
            border-radius: 15px;
            box-shadow: 0 10px 30px rgba(0,0,0,0.2);
        \x7d
        h1 \x7b
            color: #2c3e50;
            text-align: center;
            margin-bottom: 10px;
            font-size: 2.5em;
            font-weight: 300;
        \x7d
        .language-badge \x7b
            display: inline-block;
            background: linear-gradient(45deg, #3776ab, #ffd43b);
            color: white;
            padding: 8px 16px;
            border-radius: 25px;
            font-size: 0.9em;
            font-weight: bold;
            margin-left: 10px;
            box-shadow: 0 2px 10px rgba(0,0,0,0.2);
        \x7d
        h2 \x7b
            color: #34495e;
            border-bottom: 3px solid #3498db;
            padding-bottom: 10px;
            margin-top: 40px;
        \x7d
        .info-grid \x7b
            display: grid;
            grid-template-columns: auto 1fr;
            gap: 15px 25px;
            margin: 25px 0;
            background: linear-gradient(135deg, #f8f9fa, #e9ecef);
            padding: 25px;
            border-radius: 10px;
            border-left: 5px solid #3498db;
        \x7d
        .info-label \x7b
            font-weight: bold;
            color: #2c3e50;
        \x7d
        .info-value \x7b
            color: #34495e;
        \x7d
        a \x7b
            color: #3498db;
            text-decoration: none;
            font-weight: 500;
            transition: all 0.3s ease;
        \x7d
        a:hover \x7b
            color: #2980b9;
            text-decoration: underline;
        \x7d
        #browser \x7b
            background: linear-gradient(135deg, #e8f4f8, #d1ecf1);
            padding: 20px;
            border-radius: 10px;
            margin-top: 15px;
            border-left: 5px solid #17a2b8;
            font-family: 'Courier New', monospace;
            font-size: 0.9em;
        \x7d
        .footer \x7b
            text-align: center;
            margin-top: 40px;
            padding-top: 20px;
            border-top: 1px solid #dee2e6;
            color: #6c757d;
            font-size: 0.9em;
        \x7d
    </style>
</head>
<body>
    <div class=\"container\">
        <h1>Hello, World! <span class=\"language-badge\">Python</span></h1>
        
        <h2>Server Information</h2>
        <div class=\"info-grid\">
            <span class=\"info-label\">Port:</span>
            <span class=\"info-value\">"

/-- Template text between the `port` and `platform` substitution points. -/
def html_chunk_b : String :=
"</span>
            <span class=\"info-label\">Platform:</span>
            <span class=\"info-value\">"

/-- Template text between the `platform` and `system` substitution points. -/
def html_chunk_c : String :=
"</span>
            <span class=\"info-label\">System:</span>
            <span class=\"info-value\">"

/-- Template text between the `system` and `python_version` substitution
points. -/
def html_chunk_d : String :=
"</span>
            <span class=\"info-label\">Python Version:</span>
            <span class=\"info-value\">"

/-- Template text after the `python_version` substitution point. -/
def html_chunk_e : String :=
"</span>
            <span class=\"info-label\">API Endpoint:</span>
            <span class=\"info-value\"><a href='/api'>/api</a></span>
        </div>
        
        <h2>Browser Information</h2>
        <div id='browser'>
            <em>JavaScript required to display browser information</em>
        </div>
        
        <div class=\"footer\">
            <p>Multi-Language Web Server Collection | Python Implementation</p>
        </div>
    </div>
    
    <script>
        const browserInfo = document.getElementById('browser');
        const info = [
            '<strong>User-Agent:</strong> ' + navigator.userAgent,
            '<strong>Platform:</strong> ' + navigator.platform,
            '<strong>Language:</strong> ' + navigator.language,
            '<strong>Languages:</strong> ' + navigator.languages.join(', '),
            '<strong>Cookies enabled:</strong> ' + navigator.cookieEnabled,
            '<strong>Screen resolution:</strong> ' + screen.width + 'x' + screen.height,
            '<strong>Color depth:</strong> ' + screen.colorDepth + ' bits',
            '<strong>Timezone:</strong> ' + Intl.DateTimeFormat().resolvedOptions().timeZone,
            '<strong>Online status:</strong> ' + (navigator.onLine ? 'Online' : 'Offline'),
            '<strong>Hardware concurrency:</strong> ' + (navigator.hardwareConcurrency || 'Unknown') + ' cores'
        ];
        browserInfo.innerHTML = info.join('<br>');
    </script>
</body>
</html>"

/-- `WebServerHandler._create_html_response`: `html_template.format(port=PORT,
platform=platform.platform(), system=system_info,
python_version=python_version)` where `system_info` is
`f"{platform.system()} {platform.release()}"`. -/
def create_html_response (env : Env) ( PORT : Nat) : String :=
  html_chunk_a ++ toString PORT ++ html_chunk_b ++ env.platform_full ++
    html_chunk_c ++ (env.system ++ " " ++ env.release) ++ html_chunk_d ++
    env.python_version ++ html_chunk_e

/-- An HTTP response as the handler writes it: the status code passed to
`send_response`, the `send_header` lines in emission order, and the body
bytes (a UTF-8 encoded string). -/
structure Response where
  status : Nat
  headers : List (String × String)
  body : String

/-- `WebServerHandler._handle_html_request`. -/
def handle_html_request (env : Env) ( PORT : Nat) : Response :=
  let html_content := create_html_response env PORT
  { status := 200,
    headers := [("Content-Type", "text/html; charset=utf-8"),
                ("Content-Length", toString html_content.utf8ByteSize),
                ("Connection", "close")],
    body := html_content }

/-- `WebServerHandler._handle_api_request`. -/
def handle_api_request (env : Env) ( PORT : Nat) (now : Now) : Response :=
  let json_content := json_dumps_indent2 (create_api_response env PORT now)
  { status := 200,
    headers := [("Content-Type", "application/json; charset=utf-8"),
                ("Content-Length", toString json_content.utf8ByteSize),
                ("Connection", "close")],
    body := json_content }

/-- `WebServerHandler._handle_error`: only a `Content-Type: text/plain` header
is sent, then the message bytes. -/
def handle_error (status_code : Nat) (message : String) : Response :=
  { status := status_code,
    headers := [("Content-Type", "text/plain")],
    body := message }

/-- The characters of `l` before the first occurrence of `c`. -/
def take_until (c : Char) (l : List Char) : List Char :=
  l.takeWhile (fun x => x ≠ c)

/-- Models `urllib.parse._splitparams` on a path: drop a `;parameters` suffix
of the last path segment (the first `;` at or after the last `/`; when no
`/` occurs, the first `;` overall). -/
def strip_path_params (l : List Char) : List Char :=
  if l.contains '/' then
    let rev := l.reverse
    let segRev := rev.takeWhile (fun x => x ≠ '/')
    let preRev := rev.dropWhile (fun x => x ≠ '/')
    preRev.reverse ++ take_until ';' segRev.reverse
  else take_until ';' l

/-- Models the `path` component of `urllib.parse.urlparse` on an origin-form
request target (as in `BaseHTTPRequestHandler.path`: no scheme, no
authority): the fragment (everything from the first `#`) is split off first,
then the query (everything from the first `?`), then `;parameters` of the
last segment. -/
def urlparse_path (url : String) : String :=
  String.mk (strip_path_params (take_until '?' (take_until '#' url.data)))

/-- `WebServerHandler.do_GET`. `raised` carries `str(e)` of an exception
raised while constructing or writing the response (`none`: no exception);
the function is total, returning the error response rather than
propagating, which models that the failure is recovered per-request. -/
def do_GET (path : String) (env : Env) ( PORT : Nat) (now : Now)
    (raised : Option String) : Response :=
  match raised with
  | some e => handle_error 500 ("Internal server error: " ++ e)
  | none =>
    if urlparse_path path = "/api" then handle_api_request env PORT now
    else handle_html_request env PORT

/-- Boolean infix test on character lists: `needle` occurs contiguously in
`hay`. -/
def chars_infix_of (needle : List Char) : List Char → Bool
  | [] => needle.isEmpty
  | c :: t => needle.isPrefixOf (c :: t) || chars_infix_of needle t

/-- Boolean substring test, modelling Python's `needle in haystack`. -/
def str_contains (needle haystack : String) : Bool :=
  chars_infix_of needle.data haystack.data

/-- An `OSError` as `start` inspects it: its `errno` and its `str(e)` text. -/
structure OSError where
  errno : Int
  msg : String

/-- The outcome of the `HTTPServer((host, port), ...)` construction attempt
(the bind): success, an `OSError`, or some other exception (caught by the
`except Exception` clause) with its `str(e)` text. -/
inductive BindResult where
  | ok
  | osErr (e : OSError)
  | exn (msg : String)

/-- The `WebServer` instance state: configuration plus the `server`,
`server_thread` and `_running` attributes set in `__init__`. -/
structure WebServer where
  port : Nat
  host : String
  server : Option Unit
  server_thread : Option Unit
  running_flag : Bool

/-- `WebServer.__init__(port=8080, host='localhost')`. -/
def WebServer.init (port : Nat) (host : String) : WebServer :=
  { port := port, host := host, server := none, server_thread := none,
    running_flag := false }

/-- The condition `e.errno == 98 or "Address already in use" in str(e)` that
selects the distinct address-in-use report in `start`. -/
def addr_in_use (e : OSError) : Bool :=
  e.errno == 98 || str_contains "Address already in use" e.msg

/-- `WebServer.start`, given the bind outcome: returns the boolean result,
the updated instance state, and the lines printed. On success the instance
gets the server handle, `_running = True` and the daemon thread; on either
failure branch the state is untouched and `False` is returned. -/
def WebServer.start (s : WebServer) (bind : BindResult) :
    Bool × WebServer × List String :=
  match bind with
  | .ok =>
    let s' := { s with server := some (), running_flag := true,
                       server_thread := some () }
    (true, s',
     ["Web server started on http://" ++ s.host ++ ":" ++ toString s.port,
      "Main page: http://" ++ s.host ++ ":" ++ toString s.port ++ "/",
      "API endpoint: http://" ++ s.host ++ ":" ++ toString s.port ++ "/api",
      "Press Ctrl+C to stop the server"])
  | .osErr e =>
    if addr_in_use e then
      (false, s, ["Error: Port " ++ toString s.port ++ " is already in use"])
    else
      (false, s, ["Error starting server: " ++ e.msg])
  | .exn m => (false, s, ["Unexpected error: " ++ m])

/-- `WebServer.is_running`: `self._running and self.server is not None`. -/
def WebServer.is_running (s : WebServer) : Bool :=
  s.running_flag && s.server.isSome

/-- The externally visible actions `stop` performs, in order. -/
inductive StopAction where
  | print (msg : String)
  | shutdown
  | server_close
  | join (timeout : Nat)

/-- `WebServer.stop`: when `self.server` is set, prints, clears `_running`,
shuts the server down, closes its socket, and joins the thread (when one
exists) with `timeout=5`; otherwise does nothing. Returns the updated state
and the action trace. -/
def WebServer.stop (s : WebServer) : WebServer × List StopAction :=
  match s.server with
  | none => (s, [])
  | some _ =>
    ({ s with running_flag := false },
     [StopAction.print "\nShutting down server...",
      StopAction.shutdown, StopAction.server_close] ++
       (match s.server_thread with
        | some _ => [StopAction.join 5]
        | none => []) ++
       [StopAction.print "Server stopped"])

/-- The `join` timeouts occurring in a `stop` action trace. -/
def join_timeouts (acts : List StopAction) : List Nat :=
  acts.filterMap (fun a =>
    match a with
    | StopAction.join t => some t
    | _ => none)

/-- The normalized-platform-identifier mapping stated in the spec's own words
(for comparison with the source-derived `create_api_response`):
windows→win32, linux→linux, darwin→darwin, freebsd→freebsd, and for every
other OS name the lowercased OS name itself. -/
def spec_platform_mapping (os_name : String) : String :=
  let s := os_name.toLower
  if s = "windows" then "win32"
  else if s = "linux" then "linux"
  else if s = "darwin" then "darwin"
  else if s = "freebsd" then "freebsd"
  else s

lemma platform_id_eq_spec (s : String) :
    ((platform_map.lookup s.toLower).getD s.toLower) = spec_platform_mapping s := by
  simp only [spec_platform_mapping, platform_map]
  generalize s.toLower = t
  rcases eq_or_ne t "windows" with rfl | h1
  · decide
  rcases eq_or_ne t "linux" with rfl | h2
  · decide
  rcases eq_or_ne t "darwin" with rfl | h3
  · decide
  rcases eq_or_ne t "freebsd" with rfl | h4
  · decide
  simp [List.lookup, beq_eq_false_iff_ne.mpr h1, beq_eq_false_iff_ne.mpr h2,
    beq_eq_false_iff_ne.mpr h3, beq_eq_false_iff_ne.mpr h4, h1, h2, h3, h4]

/-- C1: a GET request whose parsed path is `/api` yields status 200, the
serialized JSON status document as body, and exactly the headers
`Content-Type: application/json; charset=utf-8`,
`Content-Length` = the UTF-8 byte length of the body, `Connection: close`. -/
theorem api_route_response (env : Env) ( PORT : Nat) (now : Now) (p : String)
    (h : urlparse_path p = "/api") :
    (do_GET p env PORT now none).status = 200 ∧
    (do_GET p env PORT now none).body =
      json_dumps_indent2 (create_api_response env PORT now) ∧
    (do_GET p env PORT now none).headers =
      [("Content-Type", "application/json; charset=utf-8"),
       ("Content-Length",
        toString (do_GET p env PORT now none).body.utf8ByteSize),
       ("Connection", "close")] := by
  simp [do_GET, h, handle_api_request]

/-- Witness for C1 at the concrete request path `/api` and a concrete
environment. -/
theorem api_route_response_witness :
    (do_GET "/api" (Env.mk "Linux" "6.0" "3.12.0" "Linux-6.0-x86_64") 8080
        (Now.mk "2026-10-12 00:00:00" 1760227200) none).status = 200 ∧
    (do_GET "/api" (Env.mk "Linux" "6.0" "3.12.0" "Linux-6.0-x86_64") 8080
        (Now.mk "2026-10-12 00:00:00" 1760227200) none).body =
      json_dumps_indent2 (create_api_response
        (Env.mk "Linux" "6.0" "3.12.0" "Linux-6.0-x86_64") 8080
        (Now.mk "2026-10-12 00:00:00" 1760227200)) ∧
    (do_GET "/api" (Env.mk "Linux" "6.0" "3.12.0" "Linux-6.0-x86_64") 8080
        (Now.mk "2026-10-12 00:00:00" 1760227200) none).headers =
      [("Content-Type", "application/json; charset=utf-8"),
       ("Content-Length",
        toString (do_GET "/api" (Env.mk "Linux" "6.0" "3.12.0" "Linux-6.0-x86_64")
          8080 (Now.mk "2026-10-12 00:00:00" 1760227200) none).body.utf8ByteSize),
       ("Connection", "close")] :=
  api_route_response (Env.mk "Linux" "6.0" "3.12.0" "Linux-6.0-x86_64") 8080
    (Now.mk "2026-10-12 00:00:00" 1760227200) "/api" (by decide)

/-- C2: the body of a `GET /api` response is the `indent=2` serialization of
a JSON document of the fixed shape
`(server_info: (port, platform, os, python_version, datetime, timestamp,
status, language), message)` in which `server_info.port` is the configured
port and `server_info.status` is exactly the string `running`. -/
theorem api_body_fixed_shape (env : Env) ( PORT : Nat) (now : Now) :
    ∃ pfm osd pv dt ts msg,
      (handle_api_request env PORT now).body =
        json_dumps_indent2 (Json.obj [
          ("server_info", Json.obj [
            ("port", Json.int PORT),
            ("platform", Json.str pfm),
            ("os", Json.str osd),
            ("python_version", Json.str pv),
            ("datetime", Json.str dt),
            ("timestamp", Json.int ts),
            ("status", Json.str "running"),
            ("language", Json.str "python")]),
          ("message", Json.str msg)]) :=
  ⟨_, _, _, _, _, _, rfl⟩

/-- C3: a GET request whose parsed path is not `/api` yields status 200, the
HTML page as body with headers `Content-Type: text/html; charset=utf-8`,
`Content-Length` = the UTF-8 byte length of the body, `Connection: close`,
and the body contains the decimal rendering of the configured port. -/
theorem html_route_response (env : Env) ( PORT : Nat) (now : Now) (p : String)
    (h : urlparse_path p ≠ "/api") :
    (do_GET p env PORT now none).status = 200 ∧
    (do_GET p env PORT now none).body = create_html_response env PORT ∧
    (do_GET p env PORT now none).headers =
      [("Content-Type", "text/html; charset=utf-8"),
       ("Content-Length",
        toString (do_GET p env PORT now none).body.utf8ByteSize),
       ("Connection", "close")] ∧
    ∃ pre post, (do_GET p env PORT now none).body = pre ++ toString PORT ++ post := by
  refine ⟨?_, ?_, ?_, ?_⟩ <;>
    simp only [do_GET, if_neg h, handle_html_request]
  · exact ⟨html_chunk_a,
      html_chunk_b ++ env.platform_full ++ html_chunk_c ++
        (env.system ++ " " ++ env.release) ++ html_chunk_d ++
        env.python_version ++ html_chunk_e,
      by simp [create_html_response, String.append_assoc]⟩

/-- Witness for C3 at the concrete request path `/` and a concrete
environment. -/
theorem html_route_response_witness :
    (do_GET "/" (Env.mk "Linux" "6.0" "3.12.0" "Linux-6.0-x86_64") 8080
        (Now.mk "2026-10-12 00:00:00" 1760227200) none).status = 200 ∧
    (do_GET "/" (Env.mk "Linux" "6.0" "3.12.0" "Linux-6.0-x86_64") 8080
        (Now.mk "2026-10-12 00:00:00" 1760227200) none).body =
      create_html_response (Env.mk "Linux" "6.0" "3.12.0" "Linux-6.0-x86_64") 8080 ∧
    (do_GET "/" (Env.mk "Linux" "6.0" "3.12.0" "Linux-6.0-x86_64") 8080
        (Now.mk "2026-10-12 00:00:00" 1760227200) none).headers =
      [("Content-Type", "text/html; charset=utf-8"),
       ("Content-Length",
        toString (do_GET "/" (Env.mk "Linux" "6.0" "3.12.0" "Linux-6.0-x86_64")
          8080 (Now.mk "2026-10-12 00:00:00" 1760227200) none).body.utf8ByteSize),
       ("Connection", "close")] ∧
    ∃ pre post, (do_GET "/" (Env.mk "Linux" "6.0" "3.12.0" "Linux-6.0-x86_64") 8080
        (Now.mk "2026-10-12 00:00:00" 1760227200) none).body =
      pre ++ toString 8080 ++ post :=
  html_route_response (Env.mk "Linux" "6.0" "3.12.0" "Linux-6.0-x86_64") 8080
    (Now.mk "2026-10-12 00:00:00" 1760227200) "/" (by decide)

/-- C4: the `platform` field of the JSON status document is exactly the
spec's mapping windows→win32, linux→linux, darwin→darwin, freebsd→freebsd,
else the lowercased OS name itself. -/
theorem platform_field_matches_spec_mapping (env : Env) ( PORT : Nat) (now : Now) :
    create_api_response env PORT now =
      Json.obj [
        ("server_info", Json.obj [
          ("port", Json.int PORT),
          ("platform", Json.str (spec_platform_mapping env.system)),
          ("os", Json.str (env.system ++ " " ++ env.release)),
          ("python_version", Json.str env.python_version),
          ("datetime", Json.str now.datetime_str),
          ("timestamp", Json.int now.timestamp),
          ("status", Json.str "running"),
          ("language", Json.str "python")]),
        ("message", Json.str "Server API endpoint")] := by
  simp only [create_api_response]
  rw [platform_id_eq_spec]

/-- C5: when an exception with text `e` is raised while constructing or
writing a GET response, the handler recovers and answers with status 500,
a `text/plain` header, and a plain-text body containing the failure
description; `do_GET` is total, so the failure never propagates past the
per-request handler. -/
theorem request_failure_recovered (p : String) (env : Env) ( PORT : Nat)
    (now : Now) (e : String) :
    do_GET p env PORT now (some e) =
      { status := 500, headers := [("Content-Type", "text/plain")],
        body := "Internal server error: " ++ e } ∧
    ∃ pre post, (do_GET p env PORT now (some e)).body = pre ++ e ++ post :=
  ⟨rfl, ⟨"Internal server error: ", "", (String.append_empty _).symm⟩⟩

lemma specific_port_msg_ne_generic (p : Nat) (m : String) :
    "Error: Port " ++ toString p ++ " is already in use" ≠
      "Error starting server: " ++ m := by
  intro hEq
  have hd := congrArg String.data hEq
  simp only [String.data_append] at hd
  simp [List.append_assoc] at hd

/-- C6: when the bind raises an `OSError`, `start` returns failure with the
state untouched (so a server that was not running stays not running), and
the failure is reported by exactly one line: the distinct message naming
the port when the error is address-already-in-use, the generic message
otherwise; the two messages are never equal. -/
theorem bind_failure_reporting (s : WebServer) (e : OSError) (m : String)
    (h : s.running_flag = false) :
    (s.start (.osErr e)).1 = false ∧
    (s.start (.osErr e)).2.1.is_running = false ∧
    (s.start (.osErr e)).2.2 =
      [if addr_in_use e then
         "Error: Port " ++ toString s.port ++ " is already in use"
       else "Error starting server: " ++ e.msg] ∧
    ("Error: Port " ++ toString s.port ++ " is already in use" ≠
      "Error starting server: " ++ m) := by
  refine ⟨?_, ?_, ?_, specific_port_msg_ne_generic s.port m⟩ <;>
    by_cases hc : addr_in_use e <;>
      simp [WebServer.start, WebServer.is_running, h, hc]

/-- Witness for C6: a stopped server, an address-in-use `OSError`, a generic
message text. -/
theorem bind_failure_reporting_witness :
    ((WebServer.init 8080 "localhost").start
        (.osErr (OSError.mk 98 "[Errno 98] Address already in use"))).1 = false ∧
    ((WebServer.init 8080 "localhost").start
        (.osErr (OSError.mk 98 "[Errno 98] Address already in use"))).2.1.is_running
      = false ∧
    ((WebServer.init 8080 "localhost").start
        (.osErr (OSError.mk 98 "[Errno 98] Address already in use"))).2.2 =
      [if addr_in_use (OSError.mk 98 "[Errno 98] Address already in use") then
         "Error: Port " ++ toString (WebServer.init 8080 "localhost").port ++
           " is already in use"
       else "Error starting server: " ++
         (OSError.mk 98 "[Errno 98] Address already in use").msg] ∧
    ("Error: Port " ++ toString (WebServer.init 8080 "localhost").port ++
        " is already in use" ≠ "Error starting server: " ++ "boom") :=
  bind_failure_reporting (WebServer.init 8080 "localhost")
    (OSError.mk 98 "[Errno 98] Address already in use") "boom" rfl

/-- C7: for a fresh server instance, `start` followed immediately by
`is_running` reports true exactly when the bind succeeded (and the boolean
returned by `start` agrees). -/
theorem start_then_is_running_iff (host : String) (port : Nat) (b : BindResult) :
    (((WebServer.init port host).start b).2.1.is_running = true ↔ b = BindResult.ok) ∧
    (((WebServer.init port host).start b).1 = true ↔ b = BindResult.ok) := by
  cases b with
  | ok => simp [WebServer.init, WebServer.start, WebServer.is_running]
  | osErr e =>
    by_cases hc : addr_in_use e <;>
      simp [WebServer.init, WebServer.start, WebServer.is_running, hc]
  | exn m => simp [WebServer.init, WebServer.start, WebServer.is_running]

/-- Witness for C7: on a successful bind the fresh instance reports running. -/
theorem start_then_is_running_iff_witness :
    (((WebServer.init 8080 "localhost").start BindResult.ok).2.1.is_running = true) ∧
    ¬(((WebServer.init 8080 "localhost").start
        (.osErr (OSError.mk 98 "[Errno 98] Address already in use"))).2.1.is_running
      = true) :=
  ⟨(start_then_is_running_iff "localhost" 8080 BindResult.ok).1.mpr rfl,
   fun hr =>
     by cases (start_then_is_running_iff "localhost" 8080
       (.osErr (OSError.mk 98 "[Errno 98] Address already in use"))).1.mp hr⟩

/-- C8: `stop` leaves `is_running` false, is idempotent on the instance
state, is a state-level no-op when the server is already stopped
(`_running` false), and any thread join it performs uses `timeout=5`. -/
theorem stop_idempotent_safe (s : WebServer) :
    (s.stop).1.is_running = false ∧
    ((s.stop).1.stop).1 = (s.stop).1 ∧
    (s.running_flag = false → (s.stop).1 = s) ∧
    join_timeouts (s.stop).2 =
      (if s.server.isSome && s.server_thread.isSome then [5] else []) := by
  obtain ⟨port, host, srv, thr, fl⟩ := s
  cases srv <;> cases thr <;> cases fl <;>
    simp [WebServer.stop, WebServer.is_running, join_timeouts]

/-- Witness for C8: an already-stopped (but previously started) instance is
left exactly as it was, reports not running, and joined with `timeout=5`. -/
theorem stop_idempotent_safe_witness :
    ((WebServer.mk 8080 "localhost" (some ()) (some ()) false).stop).1.is_running
      = false ∧
    ((WebServer.mk 8080 "localhost" (some ()) (some ()) false).stop).1 =
      WebServer.mk 8080 "localhost" (some ()) (some ()) false ∧
    join_timeouts ((WebServer.mk 8080 "localhost" (some ()) (some ()) false).stop).2
      = [5] :=
  ⟨(stop_idempotent_safe (WebServer.mk 8080 "localhost" (some ()) (some ()) false)).1,
   (stop_idempotent_safe
     (WebServer.mk 8080 "localhost" (some ()) (some ()) false)).2.2.1 rfl,
   (stop_idempotent_safe (WebServer.mk 8080 "localhost" (some ()) (some ()) false)).2.2.2⟩

/-- C9: dispatch depends only on the URL-parsed path component: `/api` with a
query string or a fragment still serves the JSON document, `/api/` (not
exactly `/api` once parsed) serves the HTML page, and in general the
response is chosen by comparing the parsed path with `/api`. -/
theorem dispatch_uses_parsed_path (env : Env) ( PORT : Nat) (now : Now) :
    do_GET "/api?anything" env PORT now none = handle_api_request env PORT now ∧
    do_GET "/api#frag" env PORT now none = handle_api_request env PORT now ∧
    do_GET "/api/" env PORT now none = handle_html_request env PORT ∧
    ∀ p, do_GET p env PORT now none =
      (if urlparse_path p = "/api" then handle_api_request env PORT now
       else handle_html_request env PORT) := by
  have h1 : urlparse_path "/api?anything" = "/api" := by decide
  have h2 : urlparse_path "/api#frag" = "/api" := by decide
  have h3 : ¬(urlparse_path "/api/" = "/api") := by decide
  exact ⟨by simp [do_GET, h1], by simp [do_GET, h2], by simp [do_GET, h3],
         fun p => rfl⟩

/-- C10: the error responses written by the handler carry exactly one header,
`Content-Type: text/plain` (no charset parameter), and in particular no
`Content-Length` and no `Connection` header. -/
theorem error_header_discipline (p : String) (env : Env) ( PORT : Nat)
    (now : Now) (e : String) :
    (do_GET p env PORT now (some e)).headers = [("Content-Type", "text/plain")] ∧
    (do_GET p env PORT now (some e)).headers.lookup "Content-Length" = none ∧
    (do_GET p env PORT now (some e)).headers.lookup "Connection" = none :=
  ⟨rfl, rfl, rfl⟩
